import Mathlib

/-!
Verification of the text-classification and formatting core of the
ResumeAssistant repository (src/app.py).

Lines of text are modelled as `List Char`.  The Python string primitives
used by the source (`str.strip`, `str.isupper`, `str.upper`, `in`,
`str.split`, `str.startswith`, `'sep'.join`) are translated below for the
ASCII range that the application processes; classification and rendering
(`format_resume`, `format_cover_letter`) are translated line for line from
the source.  Effectful collaborators (the document library, the filesystem)
are modelled by passing their outcome as an explicit argument.
-/

/-- Translation of Python `str.strip()`: remove leading and trailing
whitespace characters. -/
def pyStrip (s : List Char) : List Char :=
  ((s.dropWhile Char.isWhitespace).reverse.dropWhile Char.isWhitespace).reverse

/-- ASCII lower-case letter test (Python `str.islower` on one character,
restricted to the ASCII range the application handles). -/
def isLowerAscii (c : Char) : Bool := 97 ≤ c.toNat && c.toNat ≤ 122

/-- ASCII upper-case letter test. -/
def isUpperAscii (c : Char) : Bool := 65 ≤ c.toNat && c.toNat ≤ 90

/-- Translation of Python `str.isupper()`: there is at least one cased
character and no cased character is lower-case (ASCII range). -/
def pyIsUpper (s : List Char) : Bool :=
  s.any (fun c => isUpperAscii c || isLowerAscii c) && s.all (fun c => ! isLowerAscii c)

/-- Translation of Python substring membership `pat in s`. -/
def containsSeq (pat : List Char) : List Char → Bool
  | [] => pat.isEmpty
  | c :: rest => pat.isPrefixOf (c :: rest) || containsSeq pat rest

/-- Translation of Python `s.split(sep, 1)` for a one-character separator:
the part before the first occurrence of `sep` and the part after it. -/
def splitFirstChar (sep : Char) : List Char → List Char × List Char
  | [] => ([], [])
  | c :: rest =>
    if c = sep then ([], rest)
    else
      let r := splitFirstChar sep rest
      (c :: r.1, r.2)

/-- Translation of Python `s.split(sep, 1)` for a multi-character separator:
`some (before, after)` at the first occurrence, `none` when `sep` does not
occur in `s`. -/
def splitFirstSeq (sep : List Char) : List Char → Option (List Char × List Char)
  | [] => none
  | c :: rest =>
    if sep.isPrefixOf (c :: rest) then some ([], (c :: rest).drop sep.length)
    else
      match splitFirstSeq sep rest with
      | some (pre, post) => some (c :: pre, post)
      | none => none

/-- Translation of Python `s.split('\n\n')` (used by `format_cover_letter`,
src/app.py line 294): greedy left-to-right split on the two-character
separator. -/
def splitPara : List Char → List (List Char)
  | '\n' :: '\n' :: rest => [] :: splitPara rest
  | c :: rest =>
    match splitPara rest with
    | [] => [[c]]
    | h :: t => (c :: h) :: t
  | [] => [[]]

/-! Character-level facts about `Char.toUpper` (the translation of Python
`str.upper()` is `List.map Char.toUpper`). -/

theorem char_toNat_ofNat_valid (m : Nat) (h : m < 55296) : (Char.ofNat m).toNat = m := by
  unfold Char.ofNat
  rw [dif_pos (Or.inl h)]
  simp [Char.ofNatAux, Char.toNat, UInt32.toNat]

theorem isLowerAscii_toUpper (c : Char) : isLowerAscii (Char.toUpper c) = false := by
  unfold Char.toUpper
  simp only []
  split
  · rename_i h
    simp only [isLowerAscii]
    rw [char_toNat_ofNat_valid _ (by omega)]
    simp only [Bool.and_eq_false_iff, decide_eq_false_iff_not]
    omega
  · rename_i h
    simp only [isLowerAscii, Bool.and_eq_false_iff, decide_eq_false_iff_not]
    omega

theorem isUpperAscii_toUpper_of_lower (c : Char) (h : isLowerAscii c = true) :
    isUpperAscii (Char.toUpper c) = true := by
  simp only [isLowerAscii, Bool.and_eq_true, decide_eq_true_eq] at h
  unfold Char.toUpper
  simp only []
  rw [if_pos h]
  simp only [isUpperAscii]
  rw [char_toNat_ofNat_valid _ (by omega)]
  simp only [Bool.and_eq_true, decide_eq_true_eq]
  omega

theorem toUpper_eq_self_or_upper (c : Char) :
    Char.toUpper c = c ∨ isUpperAscii (Char.toUpper c) = true := by
  by_cases h : isLowerAscii c = true
  · exact Or.inr (isUpperAscii_toUpper_of_lower c h)
  · left
    simp only [isLowerAscii, Bool.and_eq_true, decide_eq_true_eq] at h
    unfold Char.toUpper
    simp only []
    rw [if_neg (by omega)]

theorem toUpper_ne_of_ne (c d : Char) (hd : isUpperAscii d = false) (h : c ≠ d) :
    Char.toUpper c ≠ d := by
  rcases toUpper_eq_self_or_upper c with hc | hc
  · rw [hc]; exact h
  · intro he
    rw [he] at hc
    rw [hd] at hc
    cases hc

theorem isCased_toUpper (c : Char) (h : (isUpperAscii c || isLowerAscii c) = true) :
    (isUpperAscii (Char.toUpper c) || isLowerAscii (Char.toUpper c)) = true := by
  rcases Bool.or_eq_true_iff.mp h with hu | hl
  · rcases toUpper_eq_self_or_upper c with hc | hc
    · rw [hc, hu]; rfl
    · rw [hc]; rfl
  · rw [isUpperAscii_toUpper_of_lower c hl]; rfl

/-! The resume classifier and renderer (`format_resume`, src/app.py
lines 603-680). -/

/-- Semantic role assigned to a line, per branch of `format_resume`. -/
inductive Role
  | Name
  | ContactLine
  | SectionHeader
  | InstitutionRow
  | BulletEntry
  | LabelValue
  | PlainText
  deriving DecidableEq, Repr

/-- The paragraph style names used by `format_resume`; the running state
`previous_style` stores one of these (or none, before the first line). -/
inductive StyleName
  | SectionStyle
  | ContactStyle
  | NameStyle
  | EducationStyle
  | ContentStyle
  deriving DecidableEq, Repr

/-- One output paragraph: the semantic role of the branch taken, the style
name assigned to the paragraph, and the paragraph's rendered text (runs
concatenated). -/
structure Classified where
  role : Role
  style : StyleName
  rendered : List Char
  deriving DecidableEq, Repr

/-- Translation of the per-line body of `format_resume` (src/app.py
lines 614-676).  `text` is the stripped, non-empty line; `prev` is
`previous_style`; `isFirst` is `not document.paragraphs[:-1]`, i.e. whether
no paragraph was added before this one. -/
def classifyLine (prev : Option StyleName) (isFirst : Bool) (text : List Char) : Classified :=
  if pyIsUpper text = true ∧ text.contains '•' = false ∧ text.contains '@' = false then
    { role := .SectionHeader, style := .SectionStyle, rendered := text }
  else if text.contains '@' = true ∧ text.contains '•' = true then
    { role := .ContactLine, style := .ContactStyle,
      rendered := List.intercalate (" • ".toList) ((text.splitOn '•').map pyStrip) }
  else if isFirst = true then
    { role := .Name, style := .NameStyle, rendered := text.map Char.toUpper }
  else if prev = some StyleName.SectionStyle ∧ containsSeq ("University".toList) text = true then
    let parts := text.splitOn '\t'
    { role := .InstitutionRow, style := .EducationStyle,
      rendered :=
        match parts with
        | p0 :: p1 :: p2 :: _ => p0 ++ '\t' :: (p1 ++ '\t' :: p2)
        | [p0, p1] => p0 ++ '\t' :: p1
        | _ => [] }
  else if text.head? = some '•' then
    let bodyText := pyStrip (text.drop 1)
    { role := .BulletEntry, style := .ContentStyle,
      rendered :=
        match splitFirstSeq (" - ".toList) bodyText with
        | some (title, desc) => "• ".toList ++ pyStrip title ++ " - ".toList ++ pyStrip desc
        | none => "• ".toList ++ bodyText }
  else if prev = some StyleName.SectionStyle ∧
      (containsSeq ("Courses".toList) text = true ∨ containsSeq ("Skills".toList) text = true) then
    let lv := if text.contains ':' = true then splitFirstChar ':' text else (text, [])
    { role := .LabelValue, style := .ContentStyle, rendered := lv.1 ++ ':' :: lv.2 }
  else
    { role := .PlainText, style := .ContentStyle, rendered := text }

/-- The loop of `format_resume` over the input paragraphs: empty (after
stripping) lines are skipped; every other line is classified and appended,
and `previous_style` is set to the style name of the paragraph just added.
`added` counts the paragraphs added so far. -/
def format_resume_go (prev : Option StyleName) (added : Nat) : List (List Char) → List Classified
  | [] => []
  | l :: ls =>
    if pyStrip l = [] then format_resume_go prev added ls
    else
      let c := classifyLine prev (added == 0) (pyStrip l)
      c :: format_resume_go (some c.style) (added + 1) ls

/-- Translation of `format_resume` (src/app.py lines 603-680): classify and
render every non-empty input paragraph in order. -/
def format_resume (content : List (List Char)) : List Classified :=
  format_resume_go none 0 content

/-- The style name that each semantic role maps to.  `BulletEntry`,
`LabelValue` and `PlainText` all map to `ContentStyle`. -/
def styleOf : Role → StyleName
  | .SectionHeader => .SectionStyle
  | .ContactLine => .ContactStyle
  | .Name => .NameStyle
  | .InstitutionRow => .EducationStyle
  | .BulletEntry => .ContentStyle
  | .LabelValue => .ContentStyle
  | .PlainText => .ContentStyle

/-! The cover-letter renderer (`format_cover_letter`, src/app.py
lines 265-302) and the serialization / endpoint plumbing the claims
refer to. -/

/-- Style names used by the cover-letter template
(`create_cover_letter_template`, src/app.py lines 222-263). -/
inductive CLStyle
  | HeaderStyle
  | DateStyle
  | RecipientStyle
  | ContentStyle
  deriving DecidableEq, Repr

/-- The caller-supplied `user_info` dictionary for the cover-letter
template; `github` and `address` are optional keys. -/
structure UserInfo where
  name : List Char
  email : List Char
  phone : List Char
  github : Option (List Char)
  address : Option (List Char)
  company_name : List Char

/-- The contact paragraph of the cover letter (src/app.py lines 274-279):
email and phone, then the optional github and address, joined by a bullet
separator. -/
def contactText (u : UserInfo) : List Char :=
  let base := u.email ++ " • ".toList ++ u.phone
  let withGithub :=
    match u.github with
    | some g => base ++ " • ".toList ++ g
    | none => base
  match u.address with
  | some a => withGithub ++ " • ".toList ++ a
  | none => withGithub

/-- The loop over `content.split('\n\n')` in `format_cover_letter`
(src/app.py lines 294-298): each part that is non-empty after stripping
becomes one ContentStyle paragraph holding the stripped part. -/
def coverBodyBlocks : List (List Char) → List (CLStyle × List Char)
  | [] => []
  | para :: rest =>
    if (pyStrip para).isEmpty then coverBodyBlocks rest
    else (CLStyle.ContentStyle, pyStrip para) :: coverBodyBlocks rest

/-- Translation of `format_cover_letter` (src/app.py lines 265-302):
header (upper-cased name), contact line, date, recipient block, fixed
salutation, one block per non-empty body paragraph, closing block.
`today` is the formatted current date. -/
def format_cover_letter (content : List Char) (u : UserInfo) (today : List Char) :
    List (CLStyle × List Char) :=
  [(CLStyle.HeaderStyle, u.name.map Char.toUpper),
   (CLStyle.HeaderStyle, contactText u),
   (CLStyle.DateStyle, today),
   (CLStyle.RecipientStyle, u.company_name ++ '\n' :: "Hiring Manager".toList),
   (CLStyle.ContentStyle, "Dear Hiring Manager,".toList)]
  ++ coverBodyBlocks (splitPara content)
  ++ [(CLStyle.ContentStyle, "Sincerely,\n".toList ++ u.name)]

/-- Output filename of the cover-letter endpoint (src/app.py
lines 349-350): task tag, then the formatted request timestamp. -/
def cover_letter_filename (timestamp : List Char) : List Char :=
  "cover_letter_".toList ++ timestamp ++ ".docx".toList

/-- Output filename of the customize-resume endpoint (src/app.py
line 389): a fixed literal.  The endpoint never reads the clock, so the
request timestamp passed here is unused. -/
def customize_resume_output_filename (timestamp : List Char) : List Char :=
  "formatted_resume.docx".toList

/-- Outcome of `read_docx` (src/app.py lines 62-68).  The source either
returns the joined paragraph text or, when the document library raises,
prints the error and calls `exit(1)`. -/
inductive ReadDocxResult
  | ok (text : List Char)
  | processExit (code : Nat)
  deriving DecidableEq, Repr

/-- Translation of `read_docx` (src/app.py lines 62-68).  `extraction` is
the outcome of `Document(file_path)` together with reading its paragraphs:
the paragraph texts on success, the exception message on failure. -/
def read_docx (extraction : Except (List Char) (List (List Char))) : ReadDocxResult :=
  match extraction with
  | .ok paras => .ok (List.intercalate ['\n'] paras)
  | .error _ => .processExit 1

/-- Result of `write_docx` (src/app.py lines 70-81): the non-empty stripped
paragraphs written, and the boolean the function returns (`True` on a
successful save, `False` when an exception was caught and logged). -/
structure WriteDocxCall where
  paragraphs : List (List Char)
  ok : Bool
  deriving DecidableEq, Repr

/-- Translation of `write_docx` (src/app.py lines 70-81).  `saveOutcome` is
the outcome of building and saving the document. -/
def write_docx (content : List Char) (saveOutcome : Except (List Char) Unit) : WriteDocxCall :=
  { paragraphs := (content.splitOn '\n').filterMap
      (fun p => if (pyStrip p).isEmpty then none else some (pyStrip p)),
    ok := match saveOutcome with | .ok _ => true | .error _ => false }

/-- A JSON response of the HTTP layer. -/
inductive EndpointResult
  | success (message filePath : List Char)
  | error (message : List Char) (status : Nat)
  deriving DecidableEq, Repr

/-- Translation of the response logic of `generate_cover_letter_endpoint`
after the generation call (src/app.py lines 348-363): when generation
produced a letter, `write_docx` is called and its returned boolean
(`writeOk`) is discarded; the success JSON is returned unconditionally.
When generation failed, an error JSON with status 500 is returned. -/
def generate_cover_letter_respond (coverLetter : Option (List Char)) (writeOk : Bool)
    (timestamp : List Char) : EndpointResult :=
  match coverLetter with
  | some _ => .success "Cover letter generated successfully".toList (cover_letter_filename timestamp)
  | none => .error "Failed to generate cover letter".toList 500

/-! Bridging lemmas. -/

theorem char_contains_iff (l : List Char) (a : Char) : l.contains a = true ↔ a ∈ l := by
  simp [List.contains, List.elem_iff]

theorem coverBodyBlocks_eq_filter (ps : List (List Char)) :
    coverBodyBlocks ps
      = (ps.filter (fun p => !(pyStrip p).isEmpty)).map (fun p => (CLStyle.ContentStyle, pyStrip p)) := by
  induction ps with
  | nil => rfl
  | cons p ps ih =>
    simp only [coverBodyBlocks, List.filter_cons]
    by_cases h : (pyStrip p).isEmpty
    · rw [if_pos h, ih]
      simp [h]
    · rw [if_neg h, ih]
      simp [h]

/-! Claim theorems. -/

/-- C1 (counterexample): the claim that the first non-empty line is always
classified `Name` is false on the code: a first line that is entirely
upper-case without a bullet or at-sign is classified `SectionHeader`, and a
first line containing both `@` and `•` is classified `ContactLine`. -/
theorem C1_counterexample :
    (format_resume ["EDUCATION".toList]).map Classified.role = [Role.SectionHeader] ∧
    Role.SectionHeader ≠ Role.Name ∧
    (format_resume ["jane@x.com • 555-1234".toList]).map Classified.role = [Role.ContactLine] := by
  decide

/-- C5 (counterexample): a failed `write_docx` call returns `false`, yet the
cover-letter endpoint, which discards that boolean, still answers with the
"Cover letter generated successfully" result. -/
theorem C5_counterexample :
    (write_docx "Dear Hiring Manager, I am writing to apply.".toList
        (Except.error "No space left on device".toList)).ok = false ∧
    generate_cover_letter_respond (some "Dear Hiring Manager, I am writing to apply.".toList)
        (write_docx "Dear Hiring Manager, I am writing to apply.".toList
          (Except.error "No space left on device".toList)).ok
        "20240101120000".toList
      = EndpointResult.success "Cover letter generated successfully".toList
          (cover_letter_filename "20240101120000".toList) :=
  ⟨rfl, rfl⟩

/-- C5 (amended): when generation succeeded, the endpoint's response is the
success result regardless of the boolean returned by `write_docx`; a
serialization failure is logged inside `write_docx` (which returns `false`)
but is never surfaced to the caller. -/
theorem C5_amended (letter timestamp : List Char) (writeOk : Bool) :
    generate_cover_letter_respond (some letter) writeOk timestamp
      = EndpointResult.success "Cover letter generated successfully".toList
          (cover_letter_filename timestamp) := rfl

/-- C4 (code bug evaluation): `read_docx` maps an extraction failure to a
process exit with code 1 instead of a structured error, contradicting the
documented error-handling policy. -/
theorem C4_code_evaluation :
    read_docx (Except.error "Package not found at uploads/resume.docx".toList)
      = ReadDocxResult.processExit 1 := rfl

/-- C6 (counterexample): the single-slot state stored after a line is the
style name, which does not distinguish `BulletEntry` from `PlainText`: two
lines with those distinct roles leave identical state. -/
theorem C6_counterexample :
    (classifyLine (some StyleName.ContentStyle) false "• Led team".toList).role = Role.BulletEntry ∧
    (classifyLine (some StyleName.ContentStyle) false "Led team".toList).role = Role.PlainText ∧
    Role.BulletEntry ≠ Role.PlainText ∧
    (classifyLine (some StyleName.ContentStyle) false "• Led team".toList).style
      = (classifyLine (some StyleName.ContentStyle) false "Led team".toList).style := by
  decide

/-- C6 (amended): after every line the state is set to the style name of
the paragraph just added, which is a function of the assigned role that
separates `Name`, `ContactLine`, `SectionHeader` and `InstitutionRow` but
maps `BulletEntry`, `LabelValue` and `PlainText` all to `ContentStyle`. -/
theorem C6_amended (prev : Option StyleName) (isFirst : Bool) (text : List Char) :
    (classifyLine prev isFirst text).style = styleOf (classifyLine prev isFirst text).role ∧
    styleOf Role.BulletEntry = StyleName.ContentStyle ∧
    styleOf Role.LabelValue = StyleName.ContentStyle ∧
    styleOf Role.PlainText = StyleName.ContentStyle := by
  refine ⟨?_, rfl, rfl, rfl⟩
  unfold classifyLine
  split_ifs <;> rfl

/-- C8: the cover-letter body is split on blank-line boundaries and each
part that is non-empty after stripping becomes exactly one ContentStyle
block between the salutation and the closing; the body
"Para one.\n\nPara two." yields exactly two such blocks. -/
theorem C8_cover_letter_body_blocks :
    (∀ (content : List Char) (u : UserInfo) (today : List Char),
      format_cover_letter content u today
        = [(CLStyle.HeaderStyle, u.name.map Char.toUpper),
           (CLStyle.HeaderStyle, contactText u),
           (CLStyle.DateStyle, today),
           (CLStyle.RecipientStyle, u.company_name ++ '\n' :: "Hiring Manager".toList),
           (CLStyle.ContentStyle, "Dear Hiring Manager,".toList)]
          ++ (((splitPara content).filter (fun p => !(pyStrip p).isEmpty)).map
              (fun p => (CLStyle.ContentStyle, pyStrip p))
          ++ [(CLStyle.ContentStyle, "Sincerely,\n".toList ++ u.name)])) ∧
    coverBodyBlocks (splitPara "Para one.\n\nPara two.".toList)
      = [(CLStyle.ContentStyle, "Para one.".toList), (CLStyle.ContentStyle, "Para two.".toList)] := by
  constructor
  · intro content u today
    rw [format_cover_letter, coverBodyBlocks_eq_filter]
    simp [List.append_assoc]
  · decide

/-- C9 (counterexample): two customize-resume requests at distinct
timestamps produce the same output filename, because the filename is the
fixed literal with no timestamp in it. -/
theorem C9_counterexample :
    "20240101120000".toList ≠ "20250101120000".toList ∧
    customize_resume_output_filename "20240101120000".toList
      = customize_resume_output_filename "20250101120000".toList :=
  ⟨by decide, rfl⟩

/-- C9 (amended): the cover-letter task's filename embeds the task tag and
the timestamp, so distinct timestamps give distinct filenames; the
resume-customization task instead always writes the fixed filename
"formatted_resume.docx", with no task-distinct timestamp. -/
theorem C9_amended (t1 t2 : List Char) (h : t1 ≠ t2) :
    cover_letter_filename t1 ≠ cover_letter_filename t2 ∧
    ∀ t : List Char, customize_resume_output_filename t = "formatted_resume.docx".toList := by
  refine ⟨?_, fun t => rfl⟩
  intro he
  apply h
  unfold cover_letter_filename at he
  exact List.append_cancel_left (List.append_cancel_right he)

/-- C9 (witness): the amended statement at two concrete distinct
timestamps. -/
theorem C9_amended_witness :
    cover_letter_filename "20240101120000".toList
      ≠ cover_letter_filename "20250101120000".toList :=
  (C9_amended "20240101120000".toList "20250101120000".toList (by decide)).1

theorem format_resume_go_skips (prev : Option StyleName) (added : Nat) (pre ls : List (List Char))
    (h : ∀ p ∈ pre, pyStrip p = []) :
    format_resume_go prev added (pre ++ ls) = format_resume_go prev added ls := by
  induction pre with
  | nil => rfl
  | cons p ps ih =>
    rw [List.cons_append]
    simp only [format_resume_go]
    rw [if_pos (h p (List.mem_cons_self p ps))]
    exact ih (fun q hq => h q (List.mem_cons_of_mem p hq))

/-- C1 (amended): the first-line rule is positional but has lower priority
than the two content rules: the first non-empty line is classified `Name`
whenever it is not entirely upper-case-without-bullet-or-at-sign and does
not contain both `@` and `•`. -/
theorem C1_amended (pre : List (List Char)) (l : List Char) (rest : List (List Char))
    (hpre : ∀ p ∈ pre, pyStrip p = [])
    (hne : ¬ pyStrip l = [])
    (h1 : ¬(pyIsUpper (pyStrip l) = true ∧ (pyStrip l).contains '•' = false ∧
      (pyStrip l).contains '@' = false))
    (h2 : ¬((pyStrip l).contains '@' = true ∧ (pyStrip l).contains '•' = true)) :
    (format_resume (pre ++ l :: rest)).head?.map Classified.role = some Role.Name := by
  unfold format_resume
  rw [format_resume_go_skips none 0 pre (l :: rest) hpre]
  simp only [format_resume_go]
  rw [if_neg hne]
  simp only [List.head?_cons, Option.map_some']
  unfold classifyLine
  have h3 : ((0 == 0) = true) := rfl
  rw [if_neg h1, if_neg h2, if_pos h3]

/-- C1 (witness): the amended statement at a concrete input. -/
theorem C1_amended_witness :
    (format_resume ["Jane Doe".toList]).head?.map Classified.role = some Role.Name :=
  C1_amended [] "Jane Doe".toList [] (by simp) (by decide) (by decide) (by decide)

/-- C7: every line containing both an at-sign and a bullet is classified
`ContactLine`, and its rendered value is the bullet-split token list,
each token stripped, re-joined with the canonical separator. -/
theorem C7_contact_line (prev : Option StyleName) (isFirst : Bool) (text : List Char)
    (hat : text.contains '@' = true) (hbul : text.contains '•' = true) :
    (classifyLine prev isFirst text).role = Role.ContactLine ∧
    (classifyLine prev isFirst text).rendered
      = List.intercalate (" • ".toList) ((text.splitOn '•').map pyStrip) := by
  unfold classifyLine
  rw [if_neg (by intro h; rw [h.2.2] at hat; cases hat), if_pos ⟨hat, hbul⟩]
  exact ⟨rfl, rfl⟩

/-- C7 (witness): the statement at a concrete contact line. -/
theorem C7_witness :
    (classifyLine none false "jane@x.com • 555-1234".toList).role = Role.ContactLine :=
  (C7_contact_line none false "jane@x.com • 555-1234".toList (by decide) (by decide)).1

/-- C3 (counterexample): a line following a `SectionHeader` that contains
"University" but no tab is classified `InstitutionRow` yet rendered as the
empty text — its content is dropped, not preserved; moreover such a line
containing both `@` and `•` is not classified `InstitutionRow` at all. -/
theorem C3_counterexample :
    (format_resume ["EDUCATION".toList, "Acme University".toList]).map Classified.role
      = [Role.SectionHeader, Role.InstitutionRow] ∧
    (format_resume ["EDUCATION".toList, "Acme University".toList]).map Classified.rendered
      = ["EDUCATION".toList, []] ∧
    "Acme University".toList ≠ ([] : List Char) ∧
    (format_resume ["EDUCATION".toList, "University of X • ab@x.com".toList]).map Classified.role
      = [Role.SectionHeader, Role.ContactLine] := by
  decide

/-- C3 (amended): a line following a `SectionHeader` that contains
"University" and escapes the two higher-priority content rules is
classified `InstitutionRow`; when it has at least one tab, its first up to
three tab-separated parts are preserved in the rendered block (further
parts are dropped), and when it has no tab the rendered block is empty. -/
theorem C3_amended (text : List Char)
    (h1 : ¬(pyIsUpper text = true ∧ text.contains '•' = false ∧ text.contains '@' = false))
    (h2 : ¬(text.contains '@' = true ∧ text.contains '•' = true))
    (huni : containsSeq ("University".toList) text = true) :
    (classifyLine (some StyleName.SectionStyle) false text).role = Role.InstitutionRow ∧
    (2 ≤ (text.splitOn '\t').length →
      (classifyLine (some StyleName.SectionStyle) false text).rendered
        = List.intercalate ['\t'] ((text.splitOn '\t').take 3)) ∧
    ((text.splitOn '\t').length < 2 →
      (classifyLine (some StyleName.SectionStyle) false text).rendered = []) := by
  unfold classifyLine
  rw [if_neg h1, if_neg h2, if_neg (by simp), if_pos ⟨rfl, huni⟩]
  refine ⟨rfl, ?_, ?_⟩
  · intro hlen
    rcases hp : text.splitOn '\t' with _ | ⟨p0, _ | ⟨p1, _ | ⟨p2, ps⟩⟩⟩
    · rw [hp] at hlen; simp at hlen
    · rw [hp] at hlen; simp at hlen
    · simp only [hp]
      simp [List.intercalate, List.intersperse]
    · simp only [hp]
      simp [List.intercalate, List.intersperse]
  · intro hlen
    rcases hp : text.splitOn '\t' with _ | ⟨p0, _ | ⟨p1, _ | ⟨p2, ps⟩⟩⟩
    · simp only [hp]
    · simp only [hp]
    · rw [hp] at hlen; simp at hlen
    · rw [hp] at hlen; simp at hlen; omega

/-- C3 (witness): the amended statement at concrete inputs with three
tab-separated parts and with none. -/
theorem C3_amended_witness :
    (classifyLine (some StyleName.SectionStyle) false
        "Acme University\tBS CS\t2022".toList).rendered
      = List.intercalate ['\t']
          (("Acme University\tBS CS\t2022".toList.splitOn '\t').take 3) :=
  (C3_amended "Acme University\tBS CS\t2022".toList
    (by decide) (by decide) (by decide)).2.1 (by decide)

theorem char_not_contains_iff (l : List Char) (a : Char) : l.contains a = false ↔ a ∉ l := by
  rw [Bool.eq_false_iff, Ne, char_contains_iff]

theorem classifyLine_name_rendered (prev : Option StyleName) (isFirst : Bool) (text : List Char)
    (h : (classifyLine prev isFirst text).role = Role.Name) :
    (classifyLine prev isFirst text).rendered = text.map Char.toUpper := by
  unfold classifyLine at h ⊢
  split_ifs at h ⊢ <;> simp_all

/-- C2 (counterexample): re-running the classifier on the rendered text is
not idempotent: a one-line input classified `Name` renders upper-cased, and
the second pass classifies that rendering as `SectionHeader`. -/
theorem C2_counterexample :
    (format_resume ["Jane Doe".toList]).map Classified.role = [Role.Name] ∧
    (format_resume ((format_resume ["Jane Doe".toList]).map Classified.rendered)).map
        Classified.role = [Role.SectionHeader] ∧
    ([Role.SectionHeader] ≠ [Role.Name]) := by
  decide

/-- C2 (amended): classification is not idempotent under re-rendering:
a line classified `Name` is rendered upper-cased, and whenever it contains
an ASCII letter and neither a bullet nor an at-sign, any second
classification of the rendered line assigns `SectionHeader`, not `Name`. -/
theorem C2_amended (prev prev' : Option StyleName) (isFirst isFirst' : Bool) (text : List Char)
    (hrole : (classifyLine prev isFirst text).role = Role.Name)
    (hletter : text.any (fun c => isUpperAscii c || isLowerAscii c) = true)
    (hbul : text.contains '•' = false)
    (hat : text.contains '@' = false) :
    (classifyLine prev' isFirst' ((classifyLine prev isFirst text).rendered)).role
      = Role.SectionHeader := by
  rw [classifyLine_name_rendered prev isFirst text hrole]
  have hup : pyIsUpper (text.map Char.toUpper) = true := by
    unfold pyIsUpper
    rw [Bool.and_eq_true]
    constructor
    · rw [List.any_map, List.any_eq_true]
      rw [List.any_eq_true] at hletter
      obtain ⟨c, hc, hcc⟩ := hletter
      exact ⟨c, hc, isCased_toUpper c hcc⟩
    · rw [List.all_eq_true]
      intro x hx
      rw [List.mem_map] at hx
      obtain ⟨a, _, rfl⟩ := hx
      rw [isLowerAscii_toUpper]
      rfl
  have transfer : ∀ d : Char, isUpperAscii d = false → text.contains d = false →
      (text.map Char.toUpper).contains d = false := by
    intro d hd hcon
    rw [char_not_contains_iff] at hcon ⊢
    intro hmem
    rw [List.mem_map] at hmem
    obtain ⟨a, ha, hda⟩ := hmem
    exact toUpper_ne_of_ne a d hd (fun he => hcon (he ▸ ha)) hda
  have hb : (text.map Char.toUpper).contains '•' = false := transfer '•' (by decide) hbul
  have ha : (text.map Char.toUpper).contains '@' = false := transfer '@' (by decide) hat
  unfold classifyLine
  rw [if_pos ⟨hup, hb, ha⟩]

/-- C2 (witness): the amended statement at a concrete input. -/
theorem C2_amended_witness :
    (classifyLine none true ((classifyLine none true "Jane Doe".toList).rendered)).role
      = Role.SectionHeader :=
  C2_amended none none true true "Jane Doe".toList (by decide) (by decide) (by decide) (by decide)

theorem splitFirstChar_reconstruct (sep : Char) (l : List Char) (h : sep ∈ l) :
    (splitFirstChar sep l).1 ++ sep :: (splitFirstChar sep l).2 = l := by
  induction l with
  | nil => cases h
  | cons c rest ih =>
    by_cases hc : c = sep
    · subst hc
      simp [splitFirstChar]
    · rcases List.mem_cons.mp h with h1 | h2
      · exact absurd h1.symm hc
      · simp only [splitFirstChar, if_neg hc, List.cons_append, List.cons.injEq, true_and]
        exact ih h2

/-- C10: every line the classifier assigns `LabelValue` renders with a colon
immediately after the label: when the source line contains a colon the
rendered text is the line itself, and when it contains none the rendered
text is the line with a colon appended. -/
theorem C10_label_value (prev : Option StyleName) (isFirst : Bool) (text : List Char)
    (hrole : (classifyLine prev isFirst text).role = Role.LabelValue) :
    (text.contains ':' = true → (classifyLine prev isFirst text).rendered = text) ∧
    (text.contains ':' = false → (classifyLine prev isFirst text).rendered = text ++ [':']) := by
  unfold classifyLine at hrole ⊢
  split_ifs at hrole ⊢ <;> try simp_all
  rename_i hcolon
  exact splitFirstChar_reconstruct ':' text hcolon

/-- C10 (witness): the statement at concrete course and skill lines. -/
theorem C10_witness :
    (classifyLine (some StyleName.SectionStyle) false
        "Relevant Courses CS101 CS102".toList).rendered
      = "Relevant Courses CS101 CS102".toList ++ [':'] :=
  (C10_label_value (some StyleName.SectionStyle) false
    "Relevant Courses CS101 CS102".toList (by decide)).2 (by decide)
